import Mathlib

/-!
Shallow embedding of the provisioning orchestrator of ursula-cli
(src/ursula_cli/shell.py): the heat orchestration flow in `_run_heat`
(credential check, stack lookup, create-vs-update decision, status polling,
SSH routing-table generation) and the connectivity probe `test_ssh`,
together with proofs about them.

Conventions: Python `os.environ.get` results are `Option String` (absent
environment variables are `none`); provider stack statuses are the literal
strings the code compares against ("IN_PROGRESS", "COMPLETE"); provider
interactions are modelled by explicit traces of responses.
-/

namespace UrsulaCli

/-! ## Credentials (shell.py, lines 243-264) -/

/-- The environment variables `_run_heat` reads to build its CREDS dict. -/
structure OsEnv where
  OS_USERNAME : Option String
  OS_PASSWORD : Option String
  OS_TENANT_NAME : Option String
  OS_PROJECT_NAME : Option String
  OS_AUTH_URL : Option String
  deriving DecidableEq, Repr

/-- Models `os.environ.get('OS_TENANT_NAME', os.environ.get('OS_PROJECT_NAME'))`. -/
def envTenant (env : OsEnv) : Option String :=
  match env.OS_TENANT_NAME with
  | some v => some v
  | none => env.OS_PROJECT_NAME

/-- The CREDS dict of `_run_heat` (lines 243-253), as an ordered
key-value list. -/
def mkCreds (env : OsEnv) : List (String × Option String) :=
  [("username", env.OS_USERNAME),
   ("password", env.OS_PASSWORD),
   ("tenant_name", envTenant env),
   ("project_name", envTenant env),
   ("auth_url", env.OS_AUTH_URL)]

/-- Python truthiness of a CREDS value: `None` and the empty string are falsy. -/
def pyTruthy : Option String → Bool
  | none => false
  | some s => s != ""

/-- Models `CREDS.keys()[CREDS.values().index(None)]`: the key of the first
entry whose value is `None`; `none` when no such entry exists (in which case
the Python `index` call raises ValueError). -/
def findNoneKey : List (String × Option String) → Option String
  | [] => none
  | (k, none) :: _ => some k
  | _ :: rest => findNoneKey rest

/-- The errors the credential-check code can raise. -/
inductive PyError where
  /-- OpenStackConfigurationError, raised at line 264 with a message naming
  the missing field. -/
  | configError (msg : String)
  /-- ValueError, raised by `CREDS.values().index(None)` at line 262 when no
  value is `None`. -/
  | valueError
  deriving DecidableEq, Repr

/-- The `ex_msg` template of lines 255-258, applied to its `%s` argument. -/
def ex_msg (namestr : String) : String :=
  namestr ++ ", ensure your environment (probably the stackrc file) is " ++
    "properly configured with OpenStack credentials"

/-- Lines 259-264: `if not all(CREDS.values())`, look up the first `None`
value and raise OpenStackConfigurationError naming its key; the lookup
itself raises ValueError when every value is set but some are falsy. -/
def checkCreds (creds : List (String × Option String)) : Except PyError Unit :=
  if creds.all (fun p => pyTruthy p.2) then
    Except.ok ()
  else
    match findNoneKey creds with
    | some name => Except.error (PyError.configError (ex_msg (name ++ " is missing")))
    | none => Except.error PyError.valueError

/-- The provider calls `_run_heat` can issue. -/
inductive ProviderCall where
  | keystoneAuth
  | getStack (name : String)
  | createStack (name : String)
  | updateStack (name : String)
  deriving DecidableEq, Repr

/-- Lines 243-284 sequencing: the credential check runs before the Keystone
client (the first provider/network interaction, line 281) is constructed.
Returns the provider calls issued so far and the raised error, if any. -/
def authPhase (env : OsEnv) : List ProviderCall × Option PyError :=
  match checkCreds (mkCreds env) with
  | Except.error e => ([], some e)
  | Except.ok _ => ([ProviderCall.keystoneAuth], none)

/-! ## Stack lookup and create-vs-update (shell.py, lines 286-307) -/

/-- A stack as returned by `heatclient.stacks.get`: its status string and
its outputs (output_key, output_value pairs). -/
structure Stack where
  status : String
  outputs : List (String × String)
  deriving DecidableEq, Repr

/-- The possible results of one `heatclient.stacks.get` call: a stack, or an
HTTP exception carrying a status code. -/
inductive GetStackResult where
  | found (stack : Stack)
  | httpError (code : Nat)
  deriving DecidableEq, Repr

/-- Lines 286-295: a successful get means the stack exists; exception code
404 means it does not; any other exception code is re-raised. -/
def checkStackExists : GetStackResult → Except Nat Bool
  | GetStackResult.found _ => Except.ok true
  | GetStackResult.httpError c => if c = 404 then Except.ok false else Except.error c

/-- Lines 297-307: which stack calls are issued given the existence flag and
the `--heat-stack-update` flag. -/
def submitCalls (stack_name : String) (stack_exists heat_stack_update : Bool) :
    List ProviderCall :=
  if stack_exists && heat_stack_update then [ProviderCall.updateStack stack_name]
  else if !stack_exists then [ProviderCall.createStack stack_name]
  else []

/-- Lines 286-307 composed: lookup, then decide which submission call to
issue; a non-404 lookup exception propagates. -/
def submitPhase (stack_name : String) (lookup : GetStackResult)
    (heat_stack_update : Bool) : Except Nat (List ProviderCall) :=
  (checkStackExists lookup).map
    (fun stack_exists => submitCalls stack_name stack_exists heat_stack_update)

/-! ## Status polling (shell.py, lines 309-318) -/

/-- Lines 309-311: `while heatclient.stacks.get(stack_name).status ==
'IN_PROGRESS'`. The trace lists the successive results of the get calls.
Returns the number of get calls the loop condition performed and the
remaining trace; `none` means the trace was exhausted with the loop still
running (the real loop would keep polling). -/
def pollLoop : List Stack → Option (Nat × List Stack)
  | [] => none
  | s :: rest =>
    if s.status = "IN_PROGRESS" then
      match pollLoop rest with
      | some (n, r) => some (n + 1, r)
      | none => none
    else
      some (1, rest)

/-- The message of the exception raised at lines 315-316. -/
def unexpectedStatusMsg (stack_name status : String) : String :=
  "stack " ++ stack_name ++ " returned an unexpected status (" ++ status ++ ")"

/-- Lines 313-316: one further `stacks.get`, then raise unless the status is
COMPLETE. -/
def fetchCompletedStack (stack_name : String) : List Stack → Option (Except String Stack)
  | [] => none
  | s :: _ =>
    if s.status ≠ "COMPLETE" then
      some (Except.error (unexpectedStatusMsg stack_name s.status))
    else
      some (Except.ok s)

/-- Lines 309-316 composed: the polling loop followed by the final fetch and
status validation. Returns the number of get calls the polling loop made,
and either the completed stack or the raised error. -/
def pollPhase (stack_name : String) (trace : List Stack) :
    Option (Nat × Except String Stack) :=
  match pollLoop trace with
  | none => none
  | some (n, rest) =>
    match fetchCompletedStack stack_name rest with
    | none => none
    | some r => some (n, r)

/-! ## Output partitioning (shell.py, lines 320-332) -/

/-- Dict insertion, `servers[key] = value`: replace the value when the key is
present, append otherwise. -/
def insertAssoc (k v : String) : List (String × String) → List (String × String)
  | [] => [(k, v)]
  | (k1, v1) :: rest =>
    if k1 = k then (k, v) :: rest else (k1, v1) :: insertAssoc k v rest

/-- The result of iterating over `stack.outputs`: the last `floating_ip`
value, the last `private_key` value, and the remaining keys as the servers
dict. -/
structure HeatOutputs where
  floating_ip : Option String
  private_key : Option String
  servers : List (String × String)
  deriving DecidableEq, Repr

/-- Lines 320-332: the `for output in stack.outputs` loop, started with
`floating_ip = None`, `private_key = None`, `servers = {}`. -/
def partitionOutputs : List (String × String) → Option String → Option String →
    List (String × String) → HeatOutputs
  | [], fip, pk, srv => ⟨fip, pk, srv⟩
  | (k, v) :: rest, fip, pk, srv =>
    if k = "floating_ip" then partitionOutputs rest (some v) pk srv
    else if k = "private_key" then partitionOutputs rest fip (some v) srv
    else partitionOutputs rest fip pk (insertAssoc k v srv)

/-! ## SSH routing document (shell.py, lines 334-379) -/

/-- The wildcard block of lines 334-341 (the leading default rule). -/
def defaultBlockStr (user : String) : String :=
  "\nHost *\n  User " ++ user ++
    "\n  ForwardAgent yes\n  UserKnownHostsFile /dev/null" ++
    "\n  StrictHostKeyChecking no\n  PasswordAuthentication no\n"

/-- Python truthiness of the optional `floating_ip` and `private_key`
variables of `_run_heat`, as a filter: the tests `if private_key:`
(line 347) and `if floating_ip:` (lines 358, 373, 389) are false both for
`None` and for the empty string, so `truthyOpt v` is `some s` exactly when
the Python test on `v` passes, carrying the tested value. -/
def truthyOpt : Option String → Option String
  | some s => if s = "" then none else some s
  | none => none

/-- Lines 346-348: the IdentityFile line appended to the default block only
when `if private_key:` is true (a key was returned and it is nonempty). -/
def idFileStr (ssh_key_path : String) (private_key : Option String) : String :=
  match truthyOpt private_key with
  | some _ => "  IdentityFile " ++ ssh_key_path
  | none => ""

/-- Lines 359-362: the gateway alias block, emitted when a floating ip
exists; its Hostname is the floating ip value. -/
def gatewayBlockStr (floating_ip : String) : String :=
  "\nHost floating_ip\n  Hostname " ++ floating_ip ++ "\n"

/-- Lines 358-365: the gateway block when `if floating_ip:` is true (a
nonempty floating ip), nothing otherwise. -/
def gatewayStr (floating_ip : Option String) : String :=
  match truthyOpt floating_ip with
  | some f => gatewayBlockStr f
  | none => ""

/-- Lines 369-377: one per-server block; only when `if floating_ip:` is true
(line 373) does it carry a ProxyCommand through the operator user at the
floating ip. -/
def hostBlockStr (user : String) (floating_ip : Option String) (server ip : String) :
    String :=
  "\nHost " ++ server ++ "\n  Hostname " ++ ip ++ "\n" ++
  (match truthyOpt floating_ip with
   | some f =>
     "  ProxyCommand ssh -W %h:%p -o StrictHostKeyChecking=no " ++
       user ++ "@" ++ f ++ "\n\n"
   | none => "")

/-- Lines 367-379: the `for server, ip in servers.iteritems()` loop,
appending one block per server. -/
def serverBlocks (user : String) (floating_ip : Option String) :
    List (String × String) → String
  | [] => ""
  | sv :: rest =>
    hostBlockStr user floating_ip sv.1 sv.2 ++ serverBlocks user floating_ip rest

/-- Lines 334-379: the full text of the `.ssh_config` file after every write
of `_run_heat`: default block (plus IdentityFile when a private key was
generated), then the gateway block when a floating ip exists, then one block
per server. -/
def buildSshConfig (user ssh_key_path : String) (out : HeatOutputs) : String :=
  (defaultBlockStr user ++ idFileStr ssh_key_path out.private_key) ++
  (gatewayStr out.floating_ip ++ serverBlocks user out.floating_ip out.servers)

/-- A structured view of one block of the routing document. -/
inductive SshBlock where
  /-- The wildcard `Host *` default rule, with its optional IdentityFile path. -/
  | star (user : String) (identity_file : Option String)
  /-- The `Host floating_ip` gateway alias rule; its argument is the Hostname. -/
  | gateway (hostname : String)
  /-- A per-server rule; `proxy` carries (user, floating ip) when a
  ProxyCommand is emitted. -/
  | host (server ip : String) (proxy : Option (String × String))
  deriving DecidableEq, Repr

/-- The exact text each structured block renders to. -/
def renderBlock : SshBlock → String
  | SshBlock.star user idf =>
    defaultBlockStr user ++
      (match idf with
       | some p => "  IdentityFile " ++ p
       | none => "")
  | SshBlock.gateway h => gatewayBlockStr h
  | SshBlock.host server ip proxy =>
    "\nHost " ++ server ++ "\n  Hostname " ++ ip ++ "\n" ++
    (match proxy with
     | some uf =>
       "  ProxyCommand ssh -W %h:%p -o StrictHostKeyChecking=no " ++
         uf.1 ++ "@" ++ uf.2 ++ "\n\n"
     | none => "")

/-- Render an ordered list of blocks to the document text. -/
def renderDoc : List SshBlock → String
  | [] => ""
  | b :: rest => renderBlock b ++ renderDoc rest

/-- The ordered block structure of the document `buildSshConfig` emits; the
gateway block and the per-server proxies appear exactly when the
`if floating_ip:` truthiness test passes, the identity file exactly when
`if private_key:` passes. -/
def buildBlocks (user ssh_key_path : String) (out : HeatOutputs) : List SshBlock :=
  SshBlock.star user ((truthyOpt out.private_key).map (fun _ => ssh_key_path)) ::
  ((match truthyOpt out.floating_ip with
    | some f => [SshBlock.gateway f]
    | none => []) ++
   out.servers.map (fun sv => SshBlock.host sv.1 sv.2
     ((truthyOpt out.floating_ip).map (fun f => (user, f)))))

/-! ## Connectivity probe and readiness gate (shell.py, lines 108-118 and 385-397) -/

/-- The outcome of one SSH connection attempt, as seen by `test_ssh`: either
the connect succeeded, or it raised one of the four caught exception kinds. -/
inductive SshAttemptResult where
  | ok
  /-- BadHostKeyException -/
  | badHostKey
  /-- AuthenticationException -/
  | authFailed
  /-- SSHException -/
  | sshFailed
  /-- socket.error -/
  | socketFailed
  deriving DecidableEq, Repr

/-- Lines 108-118: `test_ssh` returns True when the connect succeeds; each
caught exception kind is logged at debug level and the function falls off
the end, returning None (falsy). -/
def test_ssh : SshAttemptResult → Bool
  | SshAttemptResult.ok => true
  | SshAttemptResult.badHostKey => false
  | SshAttemptResult.authFailed => false
  | SshAttemptResult.sshFailed => false
  | SshAttemptResult.socketFailed => false

/-- One `while not test_ssh(...)` loop (lines 390-392 and 395-397): probe
attempt `k`, attempt `k+1`, ... until an attempt succeeds; returns the total
number of attempts made when started at `k = 0`. `fuel` bounds the modelled
trace (the real loop is unbounded); `none` means every modelled attempt
failed and the loop is still waiting. -/
def sshWaitLoop (probe : Nat → SshAttemptResult) : Nat → Nat → Option Nat
  | 0, k => if test_ssh (probe k) then some (k + 1) else none
  | fuel + 1, k =>
    if test_ssh (probe k) then some (k + 1) else sshWaitLoop probe fuel (k + 1)

/-- Lines 393-397: the no-floating-ip branch, one wait loop per server
address in order. Returns the (address, attempts) log, `none` when some
loop is still waiting. -/
def gateHostLoop (probes : String → Nat → SshAttemptResult) (fuel : Nat) :
    List (String × String) → Option (List (String × Nat))
  | [] => some []
  | sv :: rest =>
    match sshWaitLoop (probes sv.2) fuel 0 with
    | none => none
    | some n =>
      match gateHostLoop probes fuel rest with
      | none => none
      | some log => some ((sv.2, n) :: log)

/-- Lines 389-397: the readiness barrier. The branch is `if floating_ip:`
(line 389), a truthiness test: with a nonempty floating ip only that address
is probed; otherwise (no floating ip, or an empty one) every server address
must succeed in turn. Returns the (address, attempts) log on release. -/
def readinessGate (probes : String → Nat → SshAttemptResult) (fuel : Nat)
    (floating_ip : Option String) (servers : List (String × String)) :
    Option (List (String × Nat)) :=
  match truthyOpt floating_ip with
  | some f =>
    match sshWaitLoop (probes f) fuel 0 with
    | none => none
    | some n => some [(f, n)]
  | none => gateHostLoop probes fuel servers

/-! ## Composition of the post-submission phases (shell.py, lines 309-383) -/

/-- Lines 309-383 composed: poll to completion, then partition the outputs
and build the routing document; a polling error propagates and no document
is built. -/
def heatConfigPhase (stack_name user ssh_key_path : String) (trace : List Stack) :
    Option (Nat × Except String String) :=
  match pollPhase stack_name trace with
  | none => none
  | some (n, Except.error e) => some (n, Except.error e)
  | some (n, Except.ok stack) =>
    some (n, Except.ok (buildSshConfig user ssh_key_path
      (partitionOutputs stack.outputs none none [])))

/-! ## Helper lemmas about the credential check -/

/-- The key `findNoneKey` returns really is a key whose value is unset. -/
theorem findNoneKey_mem :
    ∀ (creds : List (String × Option String)) (k : String),
    findNoneKey creds = some k → (k, (none : Option String)) ∈ creds := by
  intro creds
  induction creds with
  | nil => intro k h; simp [findNoneKey] at h
  | cons p rest ih =>
    intro k h
    obtain ⟨k1, v1⟩ := p
    cases v1 with
    | none =>
      simp only [findNoneKey, Option.some.injEq] at h
      subst h
      exact List.mem_cons_self _ _
    | some s =>
      simp only [findNoneKey] at h
      exact List.mem_cons_of_mem _ (ih k h)

/-- When some value is unset, `findNoneKey` finds a key. -/
theorem findNoneKey_some_of_mem :
    ∀ (creds : List (String × Option String)) (k : String),
    (k, (none : Option String)) ∈ creds → ∃ k2, findNoneKey creds = some k2 := by
  intro creds
  induction creds with
  | nil => intro k h; simp at h
  | cons p rest ih =>
    intro k h
    obtain ⟨k1, v1⟩ := p
    cases v1 with
    | none => exact ⟨k1, rfl⟩
    | some s =>
      rcases List.mem_cons.mp h with h1 | h1
      · exact absurd (congrArg Prod.snd h1) (by simp)
      · exact ih k h1

/-- When every value is set, `findNoneKey` finds nothing (so the Python
lookup `values().index(None)` raises ValueError). -/
theorem findNoneKey_none_of_all_isSome :
    ∀ creds : List (String × Option String),
    creds.all (fun p => p.2.isSome) = true → findNoneKey creds = none := by
  intro creds
  induction creds with
  | nil => intro _; rfl
  | cons p rest ih =>
    intro h
    obtain ⟨k1, v1⟩ := p
    simp only [List.all_cons, Bool.and_eq_true] at h
    cases v1 with
    | none => simp at h
    | some s => exact ih h.2

/-- A member with a falsy value makes `all(CREDS.values())` false. -/
theorem all_truthy_false_of_mem (creds : List (String × Option String))
    (p : String × Option String) (hp : p ∈ creds) (hv : pyTruthy p.2 = false) :
    creds.all (fun q => pyTruthy q.2) = false := by
  cases hb : creds.all (fun q => pyTruthy q.2) with
  | false => rfl
  | true =>
    have := List.all_eq_true.mp hb p hp
    rw [hv] at this
    exact absurd this (by simp)

/-- C6: if any required credential field (username, password, project/tenant
scope, auth endpoint) is unset in the environment, `_run_heat` raises
OpenStackConfigurationError with a message naming a missing field, and it
does so before any provider/network call (the provider-call list is empty). -/
theorem missing_cred_named_before_network (env : OsEnv) (k : String)
    (hk : (k, (none : Option String)) ∈ mkCreds env) :
    ∃ name, (name, (none : Option String)) ∈ mkCreds env ∧
      authPhase env =
        ([], some (PyError.configError (ex_msg (name ++ " is missing")))) := by
  obtain ⟨name, hname⟩ := findNoneKey_some_of_mem _ k hk
  refine ⟨name, findNoneKey_mem _ _ hname, ?_⟩
  have hall : (mkCreds env).all (fun q => pyTruthy q.2) = false :=
    all_truthy_false_of_mem _ (k, none) hk rfl
  simp [authPhase, checkCreds, hall, hname]

/-- Witness for C6: an environment with OS_PASSWORD unset. -/
theorem missing_cred_named_before_network_witness :
    (("password", (none : Option String)) ∈
      mkCreds ⟨some "admin", none, some "demo", none, some "http://keystone:5000/v3"⟩) ∧
    (∃ name, (name, (none : Option String)) ∈
        mkCreds ⟨some "admin", none, some "demo", none, some "http://keystone:5000/v3"⟩ ∧
      authPhase ⟨some "admin", none, some "demo", none, some "http://keystone:5000/v3"⟩ =
        ([], some (PyError.configError (ex_msg (name ++ " is missing"))))) :=
  ⟨by decide,
    missing_cred_named_before_network
      ⟨some "admin", none, some "demo", none, some "http://keystone:5000/v3"⟩
      "password" (by decide)⟩

/-- C10: when every credential field is set but at least one is the empty
string, the completeness check still fails, but the branch raises ValueError
from the None lookup instead of the configuration error naming a field. -/
theorem blank_cred_value_error (env : OsEnv)
    (hall : (mkCreds env).all (fun p => p.2.isSome) = true)
    (hblank : (mkCreds env).any (fun p => p.2 == some "") = true) :
    authPhase env = ([], some PyError.valueError) ∧
    (∀ msg, PyError.valueError ≠ PyError.configError msg) := by
  obtain ⟨p, hp, hpv⟩ := List.any_eq_true.mp hblank
  have hv : p.2 = some "" := by simpa using hpv
  have hfalse : (mkCreds env).all (fun q => pyTruthy q.2) = false := by
    refine all_truthy_false_of_mem _ p hp ?_
    rw [hv]; rfl
  have hnone := findNoneKey_none_of_all_isSome _ hall
  constructor
  · simp [authPhase, checkCreds, hfalse, hnone]
  · intro msg h; cases h

/-- Witness for C10: every field set, OS_PASSWORD equal to the empty string. -/
theorem blank_cred_value_error_witness :
    ((mkCreds ⟨some "admin", some "", some "demo", none, some "http://keystone:5000/v3"⟩).all
        (fun p => p.2.isSome) = true ∧
      (mkCreds ⟨some "admin", some "", some "demo", none, some "http://keystone:5000/v3"⟩).any
        (fun p => p.2 == some "") = true) ∧
    authPhase ⟨some "admin", some "", some "demo", none, some "http://keystone:5000/v3"⟩ =
      ([], some PyError.valueError) :=
  ⟨⟨by decide, by decide⟩,
    (blank_cred_value_error
      ⟨some "admin", some "", some "demo", none, some "http://keystone:5000/v3"⟩
      (by decide) (by decide)).1⟩

/-! ## Claims about lookup and submission -/

/-- C1: the create-vs-update decision is exactly tri-state. A 404 lookup
(absent stack) issues exactly one create call whatever the update flag; an
existing stack with the update flag issues exactly one update call; an
existing stack without the flag issues no stack call at all, and `_run_heat`
falls through to the polling loop in every case. -/
theorem submit_tristate (stack_name : String) (st : Stack) (u : Bool) :
    submitPhase stack_name (GetStackResult.httpError 404) u =
      Except.ok [ProviderCall.createStack stack_name] ∧
    submitPhase stack_name (GetStackResult.found st) true =
      Except.ok [ProviderCall.updateStack stack_name] ∧
    submitPhase stack_name (GetStackResult.found st) false = Except.ok [] :=
  ⟨rfl, rfl, rfl⟩

/-- C7: a provider not-found (HTTP 404) on the stack lookup maps to the
absent status (`ok false`) and raises nothing; every other provider error
code is propagated as an error. -/
theorem getStack_notfound_absent (st : Stack) (c : Nat) :
    checkStackExists (GetStackResult.found st) = Except.ok true ∧
    checkStackExists (GetStackResult.httpError 404) = Except.ok false ∧
    (c ≠ 404 → checkStackExists (GetStackResult.httpError c) = Except.error c) := by
  refine ⟨rfl, rfl, fun hc => ?_⟩
  simp [checkStackExists, hc]

/-- Witness for C7: provider error code 500 is propagated, 404 is not. -/
theorem getStack_notfound_absent_witness :
    ((500 : Nat) ≠ 404) ∧
    checkStackExists (GetStackResult.httpError 500) = Except.error 500 :=
  ⟨by decide,
    (getStack_notfound_absent ⟨"COMPLETE", []⟩ 500).2.2 (by decide)⟩

/-! ## Claims about polling -/

/-- String concatenation is associative (used to exhibit substrings of
error messages). -/
theorem strAppend_assoc (a b c : String) : a ++ b ++ c = a ++ (b ++ c) := by
  obtain ⟨la⟩ := a
  obtain ⟨lb⟩ := b
  obtain ⟨lc⟩ := c
  exact congrArg String.mk (List.append_assoc la lb lc)

/-- C5: for successive status reads IN_PROGRESS, IN_PROGRESS, COMPLETE the
polling loop performs exactly 3 provider status polls, and the orchestrator
then proceeds to the outputs fetch (one further get of the completed stack,
whose outputs feed the routing-table build). -/
theorem poll_three_then_outputs (stack_name user ssh_key_path : String)
    (outs : List (String × String)) :
    pollLoop [⟨"IN_PROGRESS", []⟩, ⟨"IN_PROGRESS", []⟩, ⟨"COMPLETE", outs⟩,
        ⟨"COMPLETE", outs⟩] =
      some (3, [(⟨"COMPLETE", outs⟩ : Stack)]) ∧
    pollPhase stack_name [⟨"IN_PROGRESS", []⟩, ⟨"IN_PROGRESS", []⟩,
        ⟨"COMPLETE", outs⟩, ⟨"COMPLETE", outs⟩] =
      some (3, Except.ok ⟨"COMPLETE", outs⟩) ∧
    heatConfigPhase stack_name user ssh_key_path [⟨"IN_PROGRESS", []⟩,
        ⟨"IN_PROGRESS", []⟩, ⟨"COMPLETE", outs⟩, ⟨"COMPLETE", outs⟩] =
      some (3, Except.ok (buildSshConfig user ssh_key_path
        (partitionOutputs outs none none []))) :=
  ⟨rfl, rfl, rfl⟩

/-- C8: when the polling loop exits on a stack whose fetched status is not
COMPLETE, `_run_heat` raises an error whose message contains the stack name
and the last-seen status, and the routing document is never built. -/
theorem poll_failure_fatal (stack_name user ssh_key_path : String)
    (trace : List Stack) (n : Nat) (s : Stack) (rest : List Stack)
    (hpoll : pollLoop trace = some (n, s :: rest))
    (hstat : s.status ≠ "COMPLETE") :
    pollPhase stack_name trace =
      some (n, Except.error (unexpectedStatusMsg stack_name s.status)) ∧
    heatConfigPhase stack_name user ssh_key_path trace =
      some (n, Except.error (unexpectedStatusMsg stack_name s.status)) ∧
    (∃ t1 t2, unexpectedStatusMsg stack_name s.status = t1 ++ (stack_name ++ t2)) ∧
    (∃ u1 u2, unexpectedStatusMsg stack_name s.status = u1 ++ (s.status ++ u2)) := by
  have h1 : pollPhase stack_name trace =
      some (n, Except.error (unexpectedStatusMsg stack_name s.status)) := by
    simp [pollPhase, hpoll, fetchCompletedStack, hstat]
  refine ⟨h1, ?_, ?_, ?_⟩
  · simp [heatConfigPhase, h1]
  · exact ⟨"stack ", " returned an unexpected status (" ++ s.status ++ ")",
      by simp [unexpectedStatusMsg, strAppend_assoc]⟩
  · exact ⟨"stack " ++ stack_name ++ " returned an unexpected status (", ")",
      by simp [unexpectedStatusMsg, strAppend_assoc]⟩

/-- Witness for C8: a stack whose post-loop status is CREATE_FAILED. -/
theorem poll_failure_fatal_witness :
    (pollLoop [(⟨"CREATE_FAILED", []⟩ : Stack), ⟨"CREATE_FAILED", []⟩] =
        some (1, [(⟨"CREATE_FAILED", []⟩ : Stack)]) ∧
      (Stack.mk "CREATE_FAILED" []).status ≠ "COMPLETE") ∧
    pollPhase "ursula" [⟨"CREATE_FAILED", []⟩, ⟨"CREATE_FAILED", []⟩] =
      some (1, Except.error (unexpectedStatusMsg "ursula" "CREATE_FAILED")) :=
  ⟨⟨rfl, by decide⟩,
    (poll_failure_fatal "ursula" "ubuntu" "envs/example/.ssh_key"
      [⟨"CREATE_FAILED", []⟩, ⟨"CREATE_FAILED", []⟩] 1 ⟨"CREATE_FAILED", []⟩ []
      rfl (by decide)).1⟩

/-! ## Claims about the readiness gate -/

/-- A wait loop that returned recorded a successful probe: the result `n` is
at least 1 and attempt `n - 1` (the last one made) succeeded. -/
theorem sshWaitLoop_succeeded (probe : Nat → SshAttemptResult) :
    ∀ (fuel k n : Nat), sshWaitLoop probe fuel k = some n →
    1 ≤ n ∧ test_ssh (probe (n - 1)) = true := by
  intro fuel
  induction fuel with
  | zero =>
    intro k n h
    unfold sshWaitLoop at h
    split at h
    · rename_i hp
      obtain rfl : k + 1 = n := Option.some.injEq .. ▸ h
      simpa using hp
    · exact absurd h (by simp)
  | succ fuel ih =>
    intro k n h
    unfold sshWaitLoop at h
    split at h
    · rename_i hp
      obtain rfl : k + 1 = n := Option.some.injEq .. ▸ h
      simpa using hp
    · exact ih (k + 1) n h

/-- The per-host branch of the gate returns exactly one log entry per server,
in order, each recording a successful probe of that server address. -/
theorem gateHostLoop_spec (probes : String → Nat → SshAttemptResult) (fuel : Nat) :
    ∀ (servers : List (String × String)) (log : List (String × Nat)),
    gateHostLoop probes fuel servers = some log →
    log.map Prod.fst = servers.map Prod.snd ∧
    ∀ p ∈ log, test_ssh (probes p.1 (p.2 - 1)) = true := by
  intro servers
  induction servers with
  | nil =>
    intro log h
    simp only [gateHostLoop, Option.some.injEq] at h
    subst h
    simp
  | cons sv rest ih =>
    intro log h
    simp only [gateHostLoop] at h
    cases hw : sshWaitLoop (probes sv.2) fuel 0 with
    | none => rw [hw] at h; exact absurd h (by simp)
    | some n =>
      rw [hw] at h
      cases hg : gateHostLoop probes fuel rest with
      | none => rw [hg] at h; exact absurd h (by simp)
      | some log2 =>
        rw [hg] at h
        obtain rfl : (sv.2, n) :: log2 = log := Option.some.injEq .. ▸ h
        obtain ⟨hmap, hmem⟩ := ih log2 hg
        refine ⟨by simpa using hmap, ?_⟩
        intro p hp
        rcases List.mem_cons.mp hp with hp1 | hp1
        · subst hp1
          exact (sshWaitLoop_succeeded (probes sv.2) fuel 0 n hw).2
        · exact hmem p hp1

/-- C4: the readiness gate releases only once every required address has a
recorded successful probe. When a floating ip exists (nonempty, i.e. the
`if floating_ip:` test of line 389 passes), that single address is the only
one probed (the log covers exactly it, and no server address); when no
floating ip exists (absent or empty), the log covers every server address in
order; in both cases each log entry records a successful probe of that
address. -/
theorem readiness_barrier (probes : String → Nat → SshAttemptResult) (fuel : Nat)
    (floating_ip : Option String) (servers : List (String × String))
    (log : List (String × Nat))
    (h : readinessGate probes fuel floating_ip servers = some log) :
    (∀ f, truthyOpt floating_ip = some f → log.map Prod.fst = [f]) ∧
    (truthyOpt floating_ip = none → log.map Prod.fst = servers.map Prod.snd) ∧
    (∀ p ∈ log, test_ssh (probes p.1 (p.2 - 1)) = true) := by
  unfold readinessGate at h
  cases hfe : truthyOpt floating_ip with
  | some f =>
    rw [hfe] at h
    have h2 : (match sshWaitLoop (probes f) fuel 0 with
        | none => (none : Option (List (String × Nat)))
        | some n => some [(f, n)]) = some log := h
    cases hw : sshWaitLoop (probes f) fuel 0 with
    | none => rw [hw] at h2; exact absurd h2 (by simp)
    | some n =>
      rw [hw] at h2
      obtain rfl : [(f, n)] = log := Option.some.injEq .. ▸ h2
      refine ⟨?_, ?_, ?_⟩
      · intro f2 hf2
        obtain rfl : f = f2 := by injection hf2
        rfl
      · intro hn
        exact absurd hn (by simp)
      intro p hp
      rcases List.mem_cons.mp hp with hp1 | hp1
      · subst hp1
        exact (sshWaitLoop_succeeded (probes f) fuel 0 n hw).2
      · exact absurd hp1 (by simp)
  | none =>
    rw [hfe] at h
    have h2 : gateHostLoop probes fuel servers = some log := h
    obtain ⟨hmap, hmem⟩ := gateHostLoop_spec probes fuel servers log h2
    refine ⟨?_, fun _ => hmap, hmem⟩
    intro f hf
    exact absurd hf (by simp)

/-- Witness for C4: with a floating ip and an always-successful probe the
gate releases after probing exactly the floating ip once, never a server. -/
theorem readiness_barrier_witness :
    readinessGate (fun _ _ => SshAttemptResult.ok) 0 (some "203.0.113.9")
      [("node1", "10.0.0.5"), ("node2", "10.0.0.6")] =
      some [("203.0.113.9", 1)] ∧
    List.map Prod.fst [("203.0.113.9", (1 : Nat))] = ["203.0.113.9"] :=
  ⟨rfl,
    (readiness_barrier (fun _ _ => SshAttemptResult.ok) 0 (some "203.0.113.9")
      [("node1", "10.0.0.5"), ("node2", "10.0.0.6")] [("203.0.113.9", 1)]
      rfl).1 "203.0.113.9" rfl⟩

/-- The wait loop started at attempt `k` with a probe that first succeeds at
attempt `N` makes exactly the attempts `k .. N`, returning `N + 1`. -/
theorem sshWaitLoop_exact (probe : Nat → SshAttemptResult) :
    ∀ (fuel k N : Nat), k ≤ N → N ≤ k + fuel →
    (∀ i, k ≤ i → i < N → test_ssh (probe i) = false) →
    test_ssh (probe N) = true →
    sshWaitLoop probe fuel k = some (N + 1) := by
  intro fuel
  induction fuel with
  | zero =>
    intro k N hkN hNk hfail hsucc
    obtain rfl : N = k := Nat.le_antisymm (by simpa using hNk) hkN
    simp [sshWaitLoop, hsucc]
  | succ fuel ih =>
    intro k N hkN hNk hfail hsucc
    by_cases hk : k = N
    · subst hk
      simp [sshWaitLoop, hsucc]
    · have hklt : k < N := Nat.lt_of_le_of_ne hkN hk
      have hfk : test_ssh (probe k) = false := hfail k Nat.le.refl hklt
      rw [sshWaitLoop, hfk]
      simp only [Bool.false_eq_true, if_false]
      exact ih (k + 1) N hklt (by omega) (fun i hi hi2 => hfail i (by omega) hi2) hsucc

/-- C9: a probe of address `f` that fails on its first N attempts and
succeeds on attempt N + 1 makes the per-address wait loop perform exactly
N + 1 attempts and terminate; at the gate level this happens both when `f`
is a (nonempty) floating ip and when `f` is a server address in the
no-floating-ip branch; every non-success attempt outcome yields a falsy
probe result (logged and retried, never escalated to an error). -/
theorem probe_retries_exact (probes : String → Nat → SshAttemptResult)
    (f srv : String) (servers : List (String × String)) (N fuel : Nat)
    (hfail : ∀ i, i < N → test_ssh (probes f i) = false)
    (hsucc : test_ssh (probes f N) = true)
    (hfuel : N ≤ fuel) :
    sshWaitLoop (probes f) fuel 0 = some (N + 1) ∧
    (f ≠ "" → readinessGate probes fuel (some f) servers = some [(f, N + 1)]) ∧
    readinessGate probes fuel none [(srv, f)] = some [(f, N + 1)] ∧
    (∀ r, r ≠ SshAttemptResult.ok → test_ssh r = false) := by
  have h1 := sshWaitLoop_exact (probes f) fuel 0 N (Nat.zero_le _) (by omega)
    (fun i _ hi => hfail i hi) hsucc
  refine ⟨h1, ?_, ?_, ?_⟩
  · intro hf
    simp [readinessGate, truthyOpt, hf, h1]
  · simp [readinessGate, truthyOpt, gateHostLoop, h1]
  · intro r hr
    cases r with
    | ok => exact absurd rfl hr
    | badHostKey => rfl
    | authFailed => rfl
    | sshFailed => rfl
    | socketFailed => rfl

/-- Witness for C9: a probe failing twice with a socket error then
succeeding: exactly 3 attempts, both for a floating ip and for a server
address in the no-floating-ip branch. -/
theorem probe_retries_exact_witness :
    ((∀ i, i < 2 → test_ssh ((fun (_ : String) (j : Nat) =>
        if j < 2 then SshAttemptResult.socketFailed else SshAttemptResult.ok) "10.0.0.5" i) =
        false) ∧
      test_ssh ((fun (_ : String) (j : Nat) =>
        if j < 2 then SshAttemptResult.socketFailed else SshAttemptResult.ok) "10.0.0.5" 2) =
        true ∧
      2 ≤ 7 ∧ "10.0.0.5" ≠ "") ∧
    sshWaitLoop ((fun (_ : String) (j : Nat) =>
        if j < 2 then SshAttemptResult.socketFailed else SshAttemptResult.ok) "10.0.0.5") 7 0 =
      some 3 ∧
    readinessGate (fun (_ : String) (j : Nat) =>
        if j < 2 then SshAttemptResult.socketFailed else SshAttemptResult.ok) 7
        (some "10.0.0.5") [] =
      some [("10.0.0.5", 3)] :=
  ⟨⟨by decide, by decide, by decide, by decide⟩,
    (probe_retries_exact
      (fun (_ : String) (j : Nat) =>
        if j < 2 then SshAttemptResult.socketFailed else SshAttemptResult.ok)
      "10.0.0.5" "node1" [] 2 7 (by decide) (by decide) (by decide)).1,
    (probe_retries_exact
      (fun (_ : String) (j : Nat) =>
        if j < 2 then SshAttemptResult.socketFailed else SshAttemptResult.ok)
      "10.0.0.5" "node1" [] 2 7 (by decide) (by decide) (by decide)).2.1
      (by decide)⟩

/-! ## Claims about the routing document -/

/-- Unfolding equation for `insertAssoc` on a nonempty dict. -/
theorem insertAssoc_cons (k v k1 v1 : String) (rest : List (String × String)) :
    insertAssoc k v ((k1, v1) :: rest) =
      if k1 = k then (k, v) :: rest else (k1, v1) :: insertAssoc k v rest := rfl

/-- Unfolding equation for `partitionOutputs` on a nonempty output list. -/
theorem partitionOutputs_cons (k v : String) (rest : List (String × String))
    (fip pk : Option String) (acc : List (String × String)) :
    partitionOutputs ((k, v) :: rest) fip pk acc =
      if k = "floating_ip" then partitionOutputs rest (some v) pk acc
      else if k = "private_key" then partitionOutputs rest fip (some v) acc
      else partitionOutputs rest fip pk (insertAssoc k v acc) := rfl

/-- The rendered wildcard block equals the default block text of lines
334-348, identity file included exactly when `if private_key:` passes. -/
theorem renderBlock_star (user ssh_key_path : String) (pk : Option String) :
    renderBlock (SshBlock.star user ((truthyOpt pk).map (fun _ => ssh_key_path))) =
      defaultBlockStr user ++ idFileStr ssh_key_path pk := by
  cases h : truthyOpt pk with
  | none => simp [renderBlock, idFileStr, h]
  | some k => simp [renderBlock, idFileStr, h]

/-- The rendered per-server block equals the block text of lines 369-377,
proxy included exactly when `if floating_ip:` passes. -/
theorem renderBlock_host (user : String) (fip : Option String) (s ip : String) :
    renderBlock (SshBlock.host s ip ((truthyOpt fip).map (fun f => (user, f)))) =
      hostBlockStr user fip s ip := by
  cases h : truthyOpt fip with
  | none => simp [renderBlock, hostBlockStr, h]
  | some f => simp [renderBlock, hostBlockStr, h]

/-- Rendering the optional gateway block followed by a tail equals the
gateway text of lines 358-365 followed by the rendered tail. -/
theorem renderDoc_gateway (fip : Option String) (tail : List SshBlock) :
    renderDoc ((match truthyOpt fip with
      | some f => [SshBlock.gateway f]
      | none => []) ++ tail) = gatewayStr fip ++ renderDoc tail := by
  cases h : truthyOpt fip with
  | none =>
    have hg : gatewayStr fip = "" := by
      unfold gatewayStr
      rw [h]
    rw [hg]
    rfl
  | some f =>
    have hg : gatewayStr fip = gatewayBlockStr f := by
      unfold gatewayStr
      rw [h]
    rw [hg]
    rfl

/-- Rendering the per-server blocks agrees with the loop of lines 367-379. -/
theorem renderDoc_hosts (user : String) (fip : Option String) :
    ∀ servers : List (String × String),
    renderDoc (servers.map (fun sv => SshBlock.host sv.1 sv.2
      ((truthyOpt fip).map (fun f => (user, f))))) =
      serverBlocks user fip servers := by
  intro servers
  induction servers with
  | nil => rfl
  | cons sv rest ih =>
    simp only [List.map_cons, renderDoc, serverBlocks, ih, renderBlock_host]

/-- The structured block list renders to exactly the document text
`_run_heat` writes. -/
theorem renderDoc_buildBlocks (user ssh_key_path : String) (out : HeatOutputs) :
    renderDoc (buildBlocks user ssh_key_path out) =
      buildSshConfig user ssh_key_path out := by
  obtain ⟨fip, pk, servers⟩ := out
  calc renderDoc (buildBlocks user ssh_key_path ⟨fip, pk, servers⟩)
      = renderBlock (SshBlock.star user ((truthyOpt pk).map (fun _ => ssh_key_path))) ++
          renderDoc ((match truthyOpt fip with
            | some f => [SshBlock.gateway f]
            | none => []) ++
           servers.map (fun sv => SshBlock.host sv.1 sv.2
             ((truthyOpt fip).map (fun f => (user, f))))) := rfl
    _ = (defaultBlockStr user ++ idFileStr ssh_key_path pk) ++
          (gatewayStr fip ++ serverBlocks user fip servers) := by
          rw [renderBlock_star, renderDoc_gateway, renderDoc_hosts]
    _ = buildSshConfig user ssh_key_path ⟨fip, pk, servers⟩ := rfl

/-- C2: whenever the stack outputs carry a floating ip — the program's own
`if floating_ip:` test: the floating_ip output is present and nonempty, so a
shared public address exists — the emitted document is the wildcard default
rule first, then the gateway block whose Hostname is the floating ip value,
then one block per server, every one of which carries a ProxyCommand through
the operator user at the floating ip; the rendered text of this block list
is exactly the written document. -/
theorem routing_with_floating_ip (user ssh_key_path : String)
    (outputs : List (String × String)) (f : String)
    (hf : truthyOpt (partitionOutputs outputs none none []).floating_ip = some f) :
    buildBlocks user ssh_key_path (partitionOutputs outputs none none []) =
      SshBlock.star user
          ((truthyOpt (partitionOutputs outputs none none []).private_key).map
            (fun _ => ssh_key_path)) ::
        SshBlock.gateway f ::
        (partitionOutputs outputs none none []).servers.map
          (fun sv => SshBlock.host sv.1 sv.2 (some (user, f))) ∧
    SshBlock.gateway f ∈
      buildBlocks user ssh_key_path (partitionOutputs outputs none none []) ∧
    (∀ s ip pr,
      SshBlock.host s ip pr ∈
        buildBlocks user ssh_key_path (partitionOutputs outputs none none []) →
      pr = some (user, f)) ∧
    buildSshConfig user ssh_key_path (partitionOutputs outputs none none []) =
      renderDoc (buildBlocks user ssh_key_path (partitionOutputs outputs none none [])) := by
  rcases hpart : partitionOutputs outputs none none [] with ⟨fip, pk, servers⟩
  rw [hpart] at hf
  have hf2 : truthyOpt (HeatOutputs.mk fip pk servers).floating_ip = some f := hf
  have h1 : buildBlocks user ssh_key_path (⟨fip, pk, servers⟩ : HeatOutputs) =
      SshBlock.star user ((truthyOpt pk).map (fun _ => ssh_key_path)) ::
        SshBlock.gateway f ::
        servers.map (fun sv => SshBlock.host sv.1 sv.2 (some (user, f))) := by
    unfold buildBlocks
    rw [show truthyOpt (HeatOutputs.mk fip pk servers).floating_ip = some f from hf2]
    rfl
  refine ⟨h1, ?_, ?_, (renderDoc_buildBlocks _ _ _).symm⟩
  · rw [h1]
    exact List.mem_cons_of_mem _ (List.mem_cons_self _ _)
  · intro s ip pr hmem
    rw [h1] at hmem
    rcases List.mem_cons.mp hmem with h2 | h2
    · cases h2
    rcases List.mem_cons.mp h2 with h3 | h3
    · cases h3
    obtain ⟨sv, _, h4⟩ := List.mem_map.mp h3
    have h5 := congrArg (fun b => match b with
      | SshBlock.host _ _ pr2 => pr2
      | _ => none) h4
    simpa using h5.symm

set_option maxRecDepth 4000 in
/-- Witness for C2, the end-to-end scenario of the spec: two nodes, a
floating ip 203.0.113.9 and operator user ops. -/
theorem routing_with_floating_ip_witness :
    (truthyOpt (partitionOutputs [("node1", "10.0.0.5"), ("node2", "10.0.0.6"),
        ("floating_ip", "203.0.113.9")] none none []).floating_ip =
      some "203.0.113.9") ∧
    buildBlocks "ops" "envs/example/.ssh_key"
        (partitionOutputs [("node1", "10.0.0.5"), ("node2", "10.0.0.6"),
          ("floating_ip", "203.0.113.9")] none none []) =
      [SshBlock.star "ops" none,
        SshBlock.gateway "203.0.113.9",
        SshBlock.host "node1" "10.0.0.5" (some ("ops", "203.0.113.9")),
        SshBlock.host "node2" "10.0.0.6" (some ("ops", "203.0.113.9"))] ∧
    buildSshConfig "ops" "envs/example/.ssh_key"
        (partitionOutputs [("node1", "10.0.0.5"), ("node2", "10.0.0.6"),
          ("floating_ip", "203.0.113.9")] none none []) =
      "\nHost *\n  User ops\n  ForwardAgent yes\n  UserKnownHostsFile /dev/null" ++
        "\n  StrictHostKeyChecking no\n  PasswordAuthentication no\n" ++
        "\nHost floating_ip\n  Hostname 203.0.113.9\n" ++
        "\nHost node1\n  Hostname 10.0.0.5\n" ++
        "  ProxyCommand ssh -W %h:%p -o StrictHostKeyChecking=no ops@203.0.113.9\n\n" ++
        "\nHost node2\n  Hostname 10.0.0.6\n" ++
        "  ProxyCommand ssh -W %h:%p -o StrictHostKeyChecking=no ops@203.0.113.9\n\n" :=
  ⟨rfl,
    (routing_with_floating_ip "ops" "envs/example/.ssh_key"
      [("node1", "10.0.0.5"), ("node2", "10.0.0.6"), ("floating_ip", "203.0.113.9")]
      "203.0.113.9" rfl).1,
    by decide⟩

/-- Membership in the keys after a dict insertion. -/
theorem keys_insertAssoc (k v a : String) :
    ∀ l : List (String × String),
    a ∈ (insertAssoc k v l).map Prod.fst ↔ (a = k ∨ a ∈ l.map Prod.fst) := by
  intro l
  induction l with
  | nil => simp [insertAssoc]
  | cons p rest ih =>
    obtain ⟨k1, v1⟩ := p
    by_cases hk : k1 = k
    · rw [insertAssoc_cons, if_pos hk]
      subst hk
      simp only [List.map_cons, List.mem_cons]
      tauto
    · rw [insertAssoc_cons, if_neg hk]
      simp only [List.map_cons, List.mem_cons, ih]
      tauto

/-- Dict insertion preserves distinctness of keys. -/
theorem nodup_keys_insertAssoc (k v : String) :
    ∀ l : List (String × String),
    (l.map Prod.fst).Nodup → ((insertAssoc k v l).map Prod.fst).Nodup := by
  intro l
  induction l with
  | nil => intro _; simp [insertAssoc]
  | cons p rest ih =>
    obtain ⟨k1, v1⟩ := p
    intro hnd
    simp only [List.map_cons, List.nodup_cons] at hnd
    obtain ⟨hk1, hrest⟩ := hnd
    by_cases hk : k1 = k
    · rw [insertAssoc_cons, if_pos hk]
      subst hk
      simp only [List.map_cons, List.nodup_cons]
      exact ⟨hk1, hrest⟩
    · rw [insertAssoc_cons, if_neg hk]
      simp only [List.map_cons, List.nodup_cons]
      refine ⟨?_, ih hrest⟩
      rw [keys_insertAssoc]
      rintro (h | h)
      · exact hk h
      · exact hk1 h

/-- The servers dict of `partitionOutputs` holds exactly the accumulated
keys plus the non-reserved output keys. -/
theorem partition_keys :
    ∀ (outputs : List (String × String)) (fip pk : Option String)
      (acc : List (String × String)) (a : String),
    (a ∈ (partitionOutputs outputs fip pk acc).servers.map Prod.fst) ↔
      (a ∈ acc.map Prod.fst ∨
        (a ∈ outputs.map Prod.fst ∧ a ≠ "floating_ip" ∧ a ≠ "private_key")) := by
  intro outputs
  induction outputs with
  | nil =>
    intro fip pk acc a
    simp [partitionOutputs]
  | cons kv rest ih =>
    intro fip pk acc a
    obtain ⟨k, v⟩ := kv
    rw [partitionOutputs_cons]
    by_cases h1 : k = "floating_ip"
    · rw [if_pos h1]
      simp only [ih, List.map_cons, List.mem_cons]
      constructor
      · rintro (h | h)
        · exact Or.inl h
        · exact Or.inr ⟨Or.inr h.1, h.2⟩
      · rintro (h | ⟨h2 | h2, h3, h4⟩)
        · exact Or.inl h
        · exact absurd (h2.trans h1) h3
        · exact Or.inr ⟨h2, h3, h4⟩
    rw [if_neg h1]
    by_cases h2 : k = "private_key"
    · rw [if_pos h2]
      simp only [ih, List.map_cons, List.mem_cons]
      constructor
      · rintro (h | h)
        · exact Or.inl h
        · exact Or.inr ⟨Or.inr h.1, h.2⟩
      · rintro (h | ⟨h3 | h3, h4, h5⟩)
        · exact Or.inl h
        · exact absurd (h3.trans h2) h5
        · exact Or.inr ⟨h3, h4, h5⟩
    rw [if_neg h2]
    simp only [ih, keys_insertAssoc, List.map_cons, List.mem_cons]
    constructor
    · rintro ((h | h) | h)
      · subst h
        exact Or.inr ⟨Or.inl rfl, h1, h2⟩
      · exact Or.inl h
      · exact Or.inr ⟨Or.inr h.1, h.2⟩
    · rintro (h | ⟨h3 | h3, h4, h5⟩)
      · exact Or.inl (Or.inr h)
      · exact Or.inl (Or.inl h3)
      · exact Or.inr ⟨h3, h4, h5⟩

/-- The servers dict of `partitionOutputs` has distinct keys. -/
theorem partition_nodup :
    ∀ (outputs : List (String × String)) (fip pk : Option String)
      (acc : List (String × String)),
    (acc.map Prod.fst).Nodup →
    ((partitionOutputs outputs fip pk acc).servers.map Prod.fst).Nodup := by
  intro outputs
  induction outputs with
  | nil =>
    intro fip pk acc h
    exact h
  | cons kv rest ih =>
    intro fip pk acc h
    obtain ⟨k, v⟩ := kv
    rw [partitionOutputs_cons]
    by_cases h1 : k = "floating_ip"
    · rw [if_pos h1]
      exact ih _ _ _ h
    rw [if_neg h1]
    by_cases h2 : k = "private_key"
    · rw [if_pos h2]
      exact ih _ _ _ h
    rw [if_neg h2]
    exact ih _ _ _ (nodup_keys_insertAssoc k v acc h)

/-- C3: when the stack outputs carry no floating ip, the emitted document is
the wildcard default rule followed by exactly one direct-hostname,
proxy-free block per non-reserved output key (the server keys are distinct
and are exactly the non-reserved output keys); the rendered text of this
block list is exactly the written document. -/
theorem routing_without_floating_ip (user ssh_key_path : String)
    (outputs : List (String × String))
    (hf : (partitionOutputs outputs none none []).floating_ip = none) :
    buildBlocks user ssh_key_path (partitionOutputs outputs none none []) =
      SshBlock.star user
          ((truthyOpt (partitionOutputs outputs none none []).private_key).map
            (fun _ => ssh_key_path)) ::
        (partitionOutputs outputs none none []).servers.map
          (fun sv => SshBlock.host sv.1 sv.2 none) ∧
    (∀ a, a ∈ (partitionOutputs outputs none none []).servers.map Prod.fst ↔
      (a ∈ outputs.map Prod.fst ∧ a ≠ "floating_ip" ∧ a ≠ "private_key")) ∧
    ((partitionOutputs outputs none none []).servers.map Prod.fst).Nodup ∧
    buildSshConfig user ssh_key_path (partitionOutputs outputs none none []) =
      renderDoc (buildBlocks user ssh_key_path (partitionOutputs outputs none none [])) := by
  refine ⟨?_, ?_, partition_nodup outputs none none [] (by simp),
    (renderDoc_buildBlocks _ _ _).symm⟩
  · rcases hpart : partitionOutputs outputs none none [] with ⟨fip, pk, servers⟩
    rw [hpart] at hf
    obtain rfl : fip = none := hf
    rfl
  · intro a
    rw [partition_keys]
    simp

/-- Witness for C3: two nodes and no floating ip give the default rule plus
two direct proxy-free host rules. -/
theorem routing_without_floating_ip_witness :
    ((partitionOutputs [("node1", "10.0.0.5"), ("node2", "10.0.0.6")]
        none none []).floating_ip = none) ∧
    buildBlocks "ops" "envs/example/.ssh_key"
        (partitionOutputs [("node1", "10.0.0.5"), ("node2", "10.0.0.6")]
          none none []) =
      [SshBlock.star "ops" none,
        SshBlock.host "node1" "10.0.0.5" none,
        SshBlock.host "node2" "10.0.0.6" none] :=
  ⟨rfl,
    (routing_without_floating_ip "ops" "envs/example/.ssh_key"
      [("node1", "10.0.0.5"), ("node2", "10.0.0.6")] rfl).1⟩

end UrsulaCli
